import Mathlib

/-!
Verification development for the clip-retrieval core of the Thesis-Project
repository (src/core/match.py, src/core/ingest_one.py, src/core/library.py,
src/core/planning.py, src/core/models.py).

Modelling conventions:
* Python floats are modelled by exact rationals.
* numpy arrays and pandas frames are modelled by lists; a pandas row is a
  structure holding the columns the code reads.
* The open_clip text encoder is an external neural model; the composed and
  re-normalised query vector it yields is taken as an input parameter of the
  ranking function, so cosine similarities are computed from explicit vectors.
* numpy argsort followed by the stable Python list sort is modelled with the
  stable insertion sort from Mathlib; the final Python sort is stable by the
  language specification, and argsort is modelled as the stable sort of the
  index range.
-/

namespace ThesisCore

/-- VisualPlan dataclass from core/models.py. -/
structure VisualPlan where
  shot_type : String
  primary_subject : String
  action : String
  visual_level : String
  color_style : String
  avoid : List String
  duration_s : ℚ
  keywords : List String
  sensitivity : String
deriving Repr, DecidableEq, Inhabited

/-- One row of the library metadata frame, holding the columns that
core/match.py reads (id, uri, duration) together with the contentful columns
that core/ingest_one.py writes; columns that ingest_one fills with constants
of no further use (fps, resolution, license, seed, ...) are omitted. -/
structure ClipRow where
  id : String
  uri : String
  title : String
  description : String
  source : String
  duration : ℚ
  keywords : List String
  checksum : String
deriving Repr, DecidableEq, Inhabited

/-- Take dataclass from core/models.py; the metadata dict is the row snapshot. -/
structure Take where
  source : String
  clip_id : String
  clip_uri : String
  duration : ℚ
  similarity : ℚ
  metadata : ClipRow
deriving Repr, DecidableEq, Inhabited

/-- _compositional_queries from core/match.py: emit (primary_subject, 0.45)
when the subject string is truthy, (action, 0.35) when the action string is
truthy, (space-joined keywords, 0.20) when the keyword list is non-empty, and
the fallback part when nothing was emitted. -/
def _compositional_queries (vp : VisualPlan) : List (String × ℚ) :=
  let parts : List (String × ℚ) :=
    (if vp.primary_subject ≠ "" then [(vp.primary_subject, (45 : ℚ)/100)] else []) ++
    (if vp.action ≠ "" then [(vp.action, (35 : ℚ)/100)] else []) ++
    (if vp.keywords ≠ [] then
      [(String.intercalate (" ") vp.keywords, (20 : ℚ)/100)] else [])
  if parts.isEmpty then [(("medical animation"), (1 : ℚ))] else parts

/-- The weight normalisation step of clip_match:
weights = weights / (weights.sum() or 1.0). -/
def normalizeWeights (ws : List ℚ) : List ℚ :=
  let s := ws.sum
  let den := if s = 0 then 1 else s
  ws.map (fun w => w / den)

/-- Row-vector dot product, modelling vecs @ q_vec one row at a time. -/
def dotQ (v w : List ℚ) : ℚ := (List.zipWith (fun a b => a * b) v w).sum

/-- np.clip (x, 0.0, 1.0). -/
def clip01 (x : ℚ) : ℚ := min (max x 0) 1

/-- The duration-penalty step of clip_match (lines 53-57): when duration_s is
truthy (non-zero float), subtract 0.05 * clip(|(dur - vp_d)/vp_d|, 0, 1) with
vp_d = max(duration_s, 0.1); otherwise leave the similarities unchanged. -/
def adjustSims (vp : VisualPlan) (durations sims : List ℚ) : List ℚ :=
  if vp.duration_s = 0 then sims
  else
    let vp_d : ℚ := max vp.duration_s (1/10)
    List.zipWith (fun s d => s - (5 : ℚ)/100 * clip01 (|(d - vp_d) / vp_d|)) sims durations

/-- Descending stable sort of indices by adjusted similarity, modelling
np.argsort(-sims): ascending in -sims, i.e. descending in sims, with ties kept
in index order (stable model). -/
def argsortDesc (sims : List ℚ) : List ℕ :=
  List.insertionSort (fun i j => sims.getD j 0 ≤ sims.getD i 0) (List.range sims.length)

/-- Construction of one Take record from a metadata row and its adjusted
similarity (the loop body of clip_match lines 62-72). -/
def mkTake (r : ClipRow) (s : ℚ) : Take :=
  { source := ("library")
    clip_id := r.id
    clip_uri := r.uri
    duration := if r.duration ≠ 0 then r.duration else 0
    similarity := s
    metadata := r }

/-- clip_match from core/match.py, downstream of the external text encoder:
q_vec stands for the already-composed and re-normalised query embedding (its
computation runs the open_clip model and a real-valued L2 norm). The ids
argument is accepted and unused, exactly as in the source. Stages: cosine
similarities by dot product, duration penalty, over-fetched stable top pool of
size max(4k, k), Take construction, stable re-sort by similarity descending,
truncation to k. -/
def clip_match (vp : VisualPlan) (df : List ClipRow) (vecs : List (List ℚ))
    (ids : List String) (q_vec : List ℚ) (k : ℕ) : List Take :=
  let sims0 := vecs.map (fun v => dotQ v q_vec)
  let sims := adjustSims vp (df.map ClipRow.duration) sims0
  let top_idx := (argsortDesc sims).take (max (k * 4) k)
  let picks := top_idx.map (fun i => mkTake (df.getD i default) (sims.getD i 0))
  (List.insertionSort (fun a b => b.similarity ≤ a.similarity) picks).take k

/-- clip_match with the result of the np.argsort call taken as a parameter.
The source calls np.argsort with its default quicksort, whose order among tied
entries numpy leaves unspecified, so statements about tie order must quantify
over every index list satisfying the documented argsort contract
(IsArgsortDesc below); everything downstream of the argsort call — the
over-fetch pool, Take construction, the stable final sort, truncation — is the
same pipeline as clip_match, and clip_match is the instance at the stable
model argsortDesc. -/
def clip_match_argsort (vp : VisualPlan) (df : List ClipRow) (vecs : List (List ℚ))
    (ids : List String) (q_vec : List ℚ) (k : ℕ) (idx : List ℕ) : List Take :=
  let sims0 := vecs.map (fun v => dotQ v q_vec)
  let sims := adjustSims vp (df.map ClipRow.duration) sims0
  let top_idx := idx.take (max (k * 4) k)
  let picks := top_idx.map (fun i => mkTake (df.getD i default) (sims.getD i 0))
  (List.insertionSort (fun a b => b.similarity ≤ a.similarity) picks).take k

/-- The contract numpy documents for argsort(-sims): the output is a
permutation of all row indices along which the similarities are non-increasing;
the relative order of tied entries is unspecified for the default quicksort. -/
def IsArgsortDesc (sims : List ℚ) (idx : List ℕ) : Prop :=
  idx.Perm (List.range sims.length) ∧
  idx.Pairwise (fun i j => sims.getD j 0 ≤ sims.getD i 0)

/-- ingest_one from core/ingest_one.py, with the external collaborators
abstracted as inputs: srcName is the file name placed under assets, checksum
the sha256 of the file bytes (deterministic in the content), duration the
ffprobe duration, emb the keyframe embedding vector. The source builds the new
row, concatenates the frame, stacks the embedding, extends the id list and
only then persists all three artifacts; np.vstack raises when the new vector
length differs from the column count of the stored matrix, so nothing is
persisted in that case — modelled by the error branch. No duplicate check of
any kind is performed before appending. -/
def ingest_one (srcName checksum : String) (duration : ℚ) (emb : List ℚ)
    (df : List ClipRow) (vecs : List (List ℚ)) (ids : List String) :
    Except String (List ClipRow × List (List ℚ) × List String) :=
  if vecs.all (fun v => v.length == emb.length) then
    let row : ClipRow :=
      { id := checksum.take 16
        uri := srcName
        title := srcName
        description := ("")
        source := ("comfy")
        duration := duration
        keywords := []
        checksum := checksum }
    Except.ok (df ++ [row], vecs ++ [emb], ids ++ [row.id])
  else Except.error ("DimensionMismatch")

/-- load_index from core/library.py: reads the parquet table, the vector matrix
and the id list and returns them as-is. The three file contents are modelled as
parameters; the source performs no validation whatsoever between them. -/
def load_index (df : List ClipRow) (vecs : List (List ℚ)) (ids : List String) :
    List ClipRow × List (List ℚ) × List String :=
  (df, vecs, ids)

/-- VisualPlanSchema from core/planning.py (pydantic model). -/
structure VisualPlanSchema where
  shot_type : String
  primary_subject : String
  action : String
  visual_level : String
  color_style : String
  avoid : List String
  duration_s : ℚ
  keywords : List String
  sensitivity : String
deriving Repr, DecidableEq, Inhabited

/-- The fallback schema built in the except-branch of plan_visual_for_sentence. -/
def fallbackSchema (sensitivity : String) : VisualPlanSchema :=
  { shot_type := if sensitivity = "low" then ("diagram") else ("explainer")
    primary_subject := ("medical subject")
    action := ("explain mechanism")
    visual_level := ("schematic")
    color_style := ("clinical")
    avoid := [("clutter")]
    duration_s := 6
    keywords := [("mechanism")]
    sensitivity := sensitivity }

/-- plan_visual_for_sentence from core/planning.py, with the LLM round-trip
abstracted: llmResponse is the successfully parsed VisualPlanSchema, or none
when the request or validation raised (then the fallback schema is used).
Either way the parsed duration is clamped by d = max(4.0, min(8.0, d)) before
the VisualPlan is built. -/
def plan_visual_for_sentence (llmResponse : Option VisualPlanSchema)
    (sensitivity : String) : VisualPlan :=
  let parsed := llmResponse.getD (fallbackSchema sensitivity)
  let d : ℚ := max 4 (min 8 parsed.duration_s)
  { shot_type := parsed.shot_type
    primary_subject := parsed.primary_subject
    action := parsed.action
    visual_level := parsed.visual_level
    color_style := parsed.color_style
    avoid := parsed.avoid
    duration_s := d
    keywords := parsed.keywords
    sensitivity := parsed.sensitivity }

/-! ### Concrete fixtures used by examples, witnesses and counterexamples -/

/-- A plan with every text field populated and the given target duration. -/
def planWith (d : ℚ) : VisualPlan :=
  { shot_type := ("explainer")
    primary_subject := ("insulin receptor")
    action := ("binding and signaling")
    visual_level := ("schematic")
    color_style := ("clinical")
    avoid := []
    duration_s := d
    keywords := [("mechanism")]
    sensitivity := ("medium") }

/-- A minimal library row with the given id and duration. -/
def libRow (i : String) (d : ℚ) : ClipRow :=
  { id := i
    uri := i
    title := i
    description := ("")
    source := ("comfy")
    duration := d
    keywords := []
    checksum := i }

/-! ### Helper lemmas -/

theorem getD_zipWith (f : ℚ → ℚ → ℚ) (as bs : List ℚ) (i : ℕ)
    (hi : i < as.length) (hj : i < bs.length) :
    (List.zipWith f as bs).getD i 0 = f (as.getD i 0) (bs.getD i 0) := by
  induction as generalizing bs i with
  | nil => simp at hi
  | cons a as ih =>
    cases bs with
    | nil => simp at hj
    | cons b bs =>
      cases i with
      | zero => rfl
      | succ i =>
        simp only [List.zipWith_cons_cons, List.getD_cons_succ]
        exact ih bs i (by simpa using hi) (by simpa using hj)

theorem clip01_mono {x y : ℚ} (h : x ≤ y) : clip01 x ≤ clip01 y :=
  min_le_min (max_le_max h le_rfl) le_rfl

theorem length_adjustSims (vp : VisualPlan) (durations sims : List ℚ)
    (h : durations.length = sims.length) :
    (adjustSims vp durations sims).length = sims.length := by
  unfold adjustSims
  split
  · rfl
  · simp [h]

theorem pairwise_argsortDesc (sims : List ℚ) :
    (argsortDesc sims).Pairwise (fun i j => sims.getD j 0 ≤ sims.getD i 0) := by
  haveI : IsTotal ℕ (fun i j => sims.getD j 0 ≤ sims.getD i 0) :=
    ⟨fun _ _ => le_total _ _⟩
  haveI : IsTrans ℕ (fun i j => sims.getD j 0 ≤ sims.getD i 0) :=
    ⟨fun _ _ _ h1 h2 => le_trans h2 h1⟩
  exact List.sorted_insertionSort _ _

theorem length_argsortDesc (sims : List ℚ) : (argsortDesc sims).length = sims.length := by
  unfold argsortDesc
  rw [List.length_insertionSort, List.length_range]

/-! ### Claim theorems -/

/-- C9: every VisualPlan produced by the planning step — whether the LLM
response parsed or the fallback schema was used — has its duration_s clamped
into the interval [4, 8] before reaching the ranker. -/
theorem C9_duration_clamped (llmResponse : Option VisualPlanSchema) (sensitivity : String) :
    4 ≤ (plan_visual_for_sentence llmResponse sensitivity).duration_s ∧
    (plan_visual_for_sentence llmResponse sensitivity).duration_s ≤ 8 :=
  ⟨le_max_left _ _, max_le (by norm_num) (min_le_left _ _)⟩

/-- C8 counterexample: load_index returns successfully on artifacts whose row
counts disagree (table 1 row, matrix 0 rows, id list 2 entries): it returns a
handle with mismatched row counts instead of failing with CorruptIndex. -/
theorem C8_counterexample :
    load_index [libRow ("A") 5] ([] : List (List ℚ)) [("a"), ("b")]
      = ([libRow ("A") 5], ([] : List (List ℚ)), [("a"), ("b")]) ∧
    [libRow ("A") 5].length ≠ [("a"), ("b")].length :=
  ⟨rfl, by decide⟩

/-- C8 (amended): load_index performs no validation at all — it returns the
three persisted artifacts exactly as read, whatever their row counts. -/
theorem C8_no_validation (df : List ClipRow) (vecs : List (List ℚ)) (ids : List String) :
    load_index df vecs ids = (df, vecs, ids) := rfl

/-- C7: appending an embedding whose dimensionality differs from a stored row
of the matrix fails with DimensionMismatch (np.vstack raises), and since the
error precedes every artifact write, neither the returned handles nor the
persisted artifacts grow. -/
theorem C7_dimension_mismatch (srcName checksum : String) (duration : ℚ)
    (emb : List ℚ) (df : List ClipRow) (vecs : List (List ℚ)) (ids : List String)
    (v : List ℚ) (hv : v ∈ vecs) (hdim : v.length ≠ emb.length) :
    ingest_one srcName checksum duration emb df vecs ids
      = Except.error ("DimensionMismatch") := by
  unfold ingest_one
  rw [if_neg]
  intro hall
  exact hdim (by simpa using List.all_eq_true.mp hall v hv)

/-- C7 witness: a 3-dimensional vector appended to a 2-column matrix. -/
theorem C7_witness :
    ingest_one ("clip.mp4") ("abc123") 5 [1, 0, 0] [] [[1, 0]] []
      = Except.error ("DimensionMismatch") :=
  C7_dimension_mismatch ("clip.mp4") ("abc123") 5 [1, 0, 0] [] [[1, 0]] []
    [1, 0] (by decide) (by decide)

/-- The row that ingest_one builds for a file named clip.mp4 with checksum
abc123 and duration 5. -/
def libRow6 : ClipRow :=
  { id := ("abc123")
    uri := ("clip.mp4")
    title := ("clip.mp4")
    description := ("")
    source := ("comfy")
    duration := 5
    keywords := []
    checksum := ("abc123") }

/-- C6: ingest_one performs no duplicate check — ingesting the same file
content twice (same sha256 checksum, hence the same derived id) appends two
rows, two matrix rows and two identical entries in the id list, violating the
claimed at-most-once invariant. -/
theorem C6_duplicate_id :
    ingest_one ("clip.mp4") ("abc123") 5 [1, 0] [] [] []
      = Except.ok ([libRow6], [[1, 0]], [("abc123")]) ∧
    ingest_one ("clip.mp4") ("abc123") 5 [1, 0] [libRow6] [[1, 0]] [("abc123")]
      = Except.ok ([libRow6, libRow6], [[1, 0], [1, 0]], [("abc123"), ("abc123")]) ∧
    List.count ("abc123") [("abc123"), ("abc123")] = 2 :=
  ⟨rfl, rfl, by decide⟩

/-- C3 counterexample: on a library whose embedding matrix has zero rows,
clip_match returns the empty Take list — the source has no failure branch and
no EmptyLibrary error exists anywhere in the code. -/
theorem C3_counterexample :
    clip_match (planWith 5) [] [] [] [1] 3 = [] := by
  decide

/-- C3 (amended): for every plan, id list, query vector and requested k,
clip_match on the empty library returns the empty list rather than failing. -/
theorem C3_empty_library_returns_nil (vp : VisualPlan) (ids : List String)
    (q_vec : List ℚ) (k : ℕ) :
    clip_match vp [] [] ids q_vec k = [] := by
  simp [clip_match, adjustSims, argsortDesc]

/-- C1: for every plan with duration_s in [4, 8], the adjusted score of every
clip equals its raw cosine similarity minus 0.05 * clip(|dur - target|/target, 0, 1)
(the code uses max(target, 0.1) as denominator, which equals target on [4, 8],
and the truthiness guard holds since target is non-zero); and on the spec
three-clip example (durations 5, 8, 5.5; raw similarities 0.80, 0.80, 0.78;
target 5; K = 2) the top-2 result is [A, C]. -/
theorem C1_duration_penalty_formula :
    (∀ (vp : VisualPlan), 4 ≤ vp.duration_s → vp.duration_s ≤ 8 →
      ∀ (durations sims : List ℚ) (i : ℕ), i < sims.length → i < durations.length →
        (adjustSims vp durations sims).getD i 0
          = sims.getD i 0
            - (5 : ℚ)/100 * clip01 (|(durations.getD i 0 - vp.duration_s) / vp.duration_s|))
    ∧ (clip_match (planWith 5) [libRow ("A") 5, libRow ("B") 8, libRow ("C") (11/2)]
        [[4/5], [4/5], [39/50]] [] [1] 2).map Take.clip_id = [("A"), ("C")] := by
  constructor
  · intro vp h4 _ durations sims i hi hd
    have hne : vp.duration_s ≠ 0 :=
      ne_of_gt (lt_of_lt_of_le (by norm_num) h4)
    have hmax : max vp.duration_s ((1 : ℚ)/10) = vp.duration_s :=
      max_eq_left (le_trans (by norm_num) h4)
    simp only [adjustSims, if_neg hne, hmax]
    exact getD_zipWith _ _ _ _ hi hd
  · have h1 : |(3 : ℚ)/5| = 3/5 := abs_of_nonneg (by norm_num)
    have h2 : |(1 : ℚ)/10| = 1/10 := abs_of_nonneg (by norm_num)
    norm_num [clip_match, adjustSims, argsortDesc, mkTake, dotQ, clip01, planWith, libRow,
      List.insertionSort, List.orderedInsert, min_def, max_def, h1, h2]

/-- C1 witness: the general formula applied to the spec example clip B
(duration 8, raw similarity 0.80, target duration 5). -/
theorem C1_witness :
    (adjustSims (planWith 5) [8] [4/5]).getD 0 0
      = (4 : ℚ)/5 - (5 : ℚ)/100 * clip01 (|((8 : ℚ) - 5) / 5|) := by
  have h := C1_duration_penalty_formula.1 (planWith 5) (by norm_num [planWith])
    (by norm_num [planWith]) [8] [4/5] 0 (by decide) (by decide)
  simpa [planWith] using h

/-- C5 counterexample: with target duration 0.05 the penalty denominator is
max(0.05, 0.1) = 0.1, so of two clips with equal raw cosine similarity (both
0.5, realised as dot products with the query vector) the clip with duration
0.06 — strictly closer to the 0.05 target — gets a strictly lower adjusted
score than the clip with duration 0.1. -/
theorem C5_counterexample :
    |(3 : ℚ)/50 - 1/20| < |(1 : ℚ)/10 - 1/20| ∧
    dotQ [1/2] [1] = dotQ [1/2] [1] ∧
    (adjustSims (planWith (1/20)) [3/50, 1/10]
        ([[(1 : ℚ)/2], [(1 : ℚ)/2]].map (fun v => dotQ v [1]))).getD 0 0
      < (adjustSims (planWith (1/20)) [3/50, 1/10]
        ([[(1 : ℚ)/2], [(1 : ℚ)/2]].map (fun v => dotQ v [1]))).getD 1 0 := by
  have h5 : |(2 : ℚ)/5| = 2/5 := abs_of_nonneg (by norm_num)
  have hadj : adjustSims (planWith (1/20)) [3/50, 1/10]
      ([[(1 : ℚ)/2], [(1 : ℚ)/2]].map (fun v => dotQ v [1])) = [12/25, 1/2] := by
    norm_num [adjustSims, clip01, dotQ, planWith, min_def, max_def, h5]
  refine ⟨by norm_num [abs_of_nonneg], rfl, ?_⟩
  rw [hadj]
  norm_num

/-- C5 (amended): for every plan whose target duration is at least 0.1 (so the
penalty denominator max(duration_s, 0.1) coincides with duration_s), of two
clips with equal raw similarity the one whose duration is closer to the target
receives an adjusted score at least as high as the other. -/
theorem C5_closer_duration_not_worse (vp : VisualPlan)
    (hd : (1 : ℚ)/10 ≤ vp.duration_s)
    (durations sims : List ℚ) (i j : ℕ)
    (hi : i < sims.length) (hj : j < sims.length)
    (hi2 : i < durations.length) (hj2 : j < durations.length)
    (hsim : sims.getD i 0 = sims.getD j 0)
    (hclose : |durations.getD i 0 - vp.duration_s| ≤ |durations.getD j 0 - vp.duration_s|) :
    (adjustSims vp durations sims).getD j 0 ≤ (adjustSims vp durations sims).getD i 0 := by
  have hpos : (0 : ℚ) < vp.duration_s := lt_of_lt_of_le (by norm_num) hd
  have hne : vp.duration_s ≠ 0 := ne_of_gt hpos
  have hmax : max vp.duration_s ((1 : ℚ)/10) = vp.duration_s := max_eq_left hd
  simp only [adjustSims, if_neg hne, hmax]
  rw [getD_zipWith _ _ _ _ hi hi2, getD_zipWith _ _ _ _ hj hj2, hsim]
  refine sub_le_sub_left (mul_le_mul_of_nonneg_left (clip01_mono ?_) (by norm_num)) _
  rw [abs_div, abs_div, abs_of_pos hpos]
  gcongr

/-- C5 witness: two clips with equal raw similarity 0.5, durations 5 and 8,
target duration 5: the closer clip (index 0) scores at least the other. -/
theorem C5_witness :
    (adjustSims (planWith 5) [5, 8] [1/2, 1/2]).getD 1 0
      ≤ (adjustSims (planWith 5) [5, 8] [1/2, 1/2]).getD 0 0 :=
  C5_closer_duration_not_worse (planWith 5) (by norm_num [planWith]) [5, 8] [1/2, 1/2] 0 1
    (by decide) (by decide) (by decide) (by decide) rfl (by simp [planWith])

/-- C10: when duration_s is 0 the truthiness guard fails and no duration
penalty is applied at all — adjusted similarities equal the raw ones — and for
any non-zero duration_s below 0.1 the penalty is computed against the
denominator max(duration_s, 0.1) = 0.1, not duration_s itself. -/
theorem C10_zero_and_small_duration (vp : VisualPlan) (durations sims : List ℚ) :
    (vp.duration_s = 0 → adjustSims vp durations sims = sims) ∧
    (vp.duration_s ≠ 0 → vp.duration_s < 1/10 →
      ∀ i : ℕ, i < sims.length → i < durations.length →
        (adjustSims vp durations sims).getD i 0
          = sims.getD i 0
            - (5 : ℚ)/100 * clip01 (|(durations.getD i 0 - 1/10) / (1/10)|)) := by
  constructor
  · intro h0
    simp [adjustSims, h0]
  · intro hne hlt i hi hd
    have hmax : max vp.duration_s ((1 : ℚ)/10) = 1/10 := max_eq_right (le_of_lt hlt)
    simp only [adjustSims, if_neg hne, hmax]
    exact getD_zipWith _ _ _ _ hi hd

/-- C10 witness: a plan with duration 0 leaves similarities unchanged, and a
plan with duration 0.05 is penalised against denominator 0.1. -/
theorem C10_witness :
    adjustSims (planWith 0) [2] [1/2] = [1/2] ∧
    (adjustSims (planWith (1/20)) [3/50] [1/2]).getD 0 0
      = (1 : ℚ)/2 - (5 : ℚ)/100 * clip01 (|((3 : ℚ)/50 - 1/10) / (1/10)|) := by
  constructor
  · exact (C10_zero_and_small_duration (planWith 0) [2] [1/2]).1 rfl
  · have h := (C10_zero_and_small_duration (planWith (1/20)) [3/50] [1/2]).2
      (by norm_num [planWith]) (by norm_num [planWith]) 0 (by decide) (by decide)
    simpa using h

/-- C4: for every VisualPlan the query parts emitted by the composer, with the
normalisation step applied to their weights, sum to exactly 1 (exact rational
arithmetic, hence within any tolerance); the part list has between 1 and 3
entries; and the parts appear in subject, action, keywords order carrying the
raw relative weights 0.45, 0.35, 0.20 — unless all three fields are absent, in
which case the single fallback part (medical animation, 1) is emitted. -/
theorem C4_weight_normalisation (vp : VisualPlan) :
    (normalizeWeights ((_compositional_queries vp).map Prod.snd)).sum = 1 ∧
    1 ≤ (_compositional_queries vp).length ∧ (_compositional_queries vp).length ≤ 3 ∧
    (((_compositional_queries vp).map Prod.fst).Sublist
        [vp.primary_subject, vp.action, String.intercalate (" ") vp.keywords] ∧
      ((_compositional_queries vp).map Prod.snd).Sublist [(45 : ℚ)/100, 35/100, 20/100]
     ∨ _compositional_queries vp = [(("medical animation"), 1)]) := by
  by_cases h1 : vp.primary_subject = "" <;> by_cases h2 : vp.action = "" <;>
    by_cases h3 : vp.keywords = [] <;>
    simp only [_compositional_queries, h1, h2, h3, ne_eq, not_true_eq_false, not_false_eq_true,
      if_true, if_false, ite_true, ite_false, List.append_nil, List.nil_append, List.append_assoc,
      List.cons_append, List.isEmpty_nil, List.isEmpty_cons, List.map_cons, List.map_nil] <;>
    refine ⟨by norm_num [normalizeWeights], by norm_num, by norm_num, ?_⟩
  · trivial
  · exact Or.inl ⟨(List.Sublist.cons _ (List.Sublist.cons _
      (List.Sublist.cons₂ _ (List.nil_sublist _)))),
      (List.Sublist.cons _ (List.Sublist.cons _
      (List.Sublist.cons₂ _ (List.nil_sublist _))))⟩
  · exact Or.inl ⟨(List.Sublist.cons _ (List.Sublist.cons₂ _ (List.nil_sublist _))),
      (List.Sublist.cons _ (List.Sublist.cons₂ _ (List.nil_sublist _)))⟩
  · exact Or.inl ⟨(List.Sublist.cons _ (List.Sublist.cons₂ _
      (List.Sublist.cons₂ _ (List.nil_sublist _)))),
      (List.Sublist.cons _ (List.Sublist.cons₂ _
      (List.Sublist.cons₂ _ (List.nil_sublist _))))⟩
  · exact Or.inl ⟨(List.Sublist.cons₂ _ (List.nil_sublist _)),
      (List.Sublist.cons₂ _ (List.nil_sublist _))⟩
  · exact Or.inl ⟨(List.Sublist.cons₂ _ (List.Sublist.cons _
      (List.Sublist.cons₂ _ (List.nil_sublist _)))),
      (List.Sublist.cons₂ _ (List.Sublist.cons _
      (List.Sublist.cons₂ _ (List.nil_sublist _))))⟩
  · exact Or.inl ⟨(List.Sublist.cons₂ _ (List.Sublist.cons₂ _ (List.nil_sublist _))),
      (List.Sublist.cons₂ _ (List.Sublist.cons₂ _ (List.nil_sublist _)))⟩
  · exact Or.inl ⟨(List.Sublist.cons₂ _ (List.Sublist.cons₂ _
      (List.Sublist.cons₂ _ (List.nil_sublist _)))),
      (List.Sublist.cons₂ _ (List.Sublist.cons₂ _
      (List.Sublist.cons₂ _ (List.nil_sublist _))))⟩

/-- clip_match is the argsort-parametric pipeline instantiated at the stable
index sort (the fixed model used for the concrete evaluations above). -/
theorem clip_match_eq_argsort_instance (vp : VisualPlan) (df : List ClipRow)
    (vecs : List (List ℚ)) (ids : List String) (q_vec : List ℚ) (k : ℕ) :
    clip_match vp df vecs ids q_vec k
      = clip_match_argsort vp df vecs ids q_vec k
          (argsortDesc (adjustSims vp (df.map ClipRow.duration)
            (vecs.map (fun v => dotQ v q_vec)))) := rfl

/-- The stable index sort satisfies the documented argsort contract. -/
theorem argsortDesc_isArgsortDesc (sims : List ℚ) :
    IsArgsortDesc sims (argsortDesc sims) :=
  ⟨List.perm_insertionSort _ _, pairwise_argsortDesc sims⟩

/-- C2 counterexample: two clips with equal adjusted score (same vector, same
duration equal to the target). The index list [1, 0] satisfies everything
numpy documents for argsort(-sims) — it is a permutation of the row indices
with the similarities non-increasing along it — yet running the pipeline on it
returns the tied Takes in the order B, A rather than the original row order
A, B: the ties-broken-by-original-ordering conclusion is not a consequence of
the code, whose default quicksort argsort leaves tie order unspecified. -/
theorem C2_counterexample :
    IsArgsortDesc
      (adjustSims (planWith 5) ([libRow ("A") 5, libRow ("B") 5].map ClipRow.duration)
        ([[(1 : ℚ)/2], [(1 : ℚ)/2]].map (fun v => dotQ v [1]))) [1, 0] ∧
    (clip_match_argsort (planWith 5) [libRow ("A") 5, libRow ("B") 5]
        [[(1 : ℚ)/2], [(1 : ℚ)/2]] [] [1] 2 [1, 0]).map Take.clip_id
      = [("B"), ("A")] := by
  constructor
  · constructor
    · decide
    · norm_num [adjustSims, clip01, dotQ, planWith, libRow, min_def, max_def]
  · norm_num [clip_match_argsort, adjustSims, argsortDesc, mkTake, dotQ, clip01,
      planWith, libRow, List.insertionSort, List.orderedInsert, min_def, max_def]

/-- C2 (amended): for an aligned library (matrix rows = table rows), any
requested k ≥ 1 and every index list satisfying the documented argsort
contract — hence whatever the unstable default quicksort returns — the
pipeline downstream of the argsort call returns exactly min(k, N) Takes,
ordered by adjusted similarity score descending; the relative order of tied
adjusted scores follows the argsort output and is not guaranteed to be the
original row order. -/
theorem C2_topk_any_admissible_argsort (vp : VisualPlan) (df : List ClipRow)
    (vecs : List (List ℚ)) (ids : List String) (q_vec : List ℚ) (k : ℕ)
    (idx : List ℕ) (hk : 1 ≤ k) (hlen : vecs.length = df.length)
    (hidx : IsArgsortDesc (adjustSims vp (df.map ClipRow.duration)
      (vecs.map (fun v => dotQ v q_vec))) idx) :
    (clip_match_argsort vp df vecs ids q_vec k idx).length = min k df.length ∧
    (clip_match_argsort vp df vecs ids q_vec k idx).Pairwise
      (fun a b => b.similarity ≤ a.similarity) := by
  have _ := hk
  obtain ⟨hperm, hpair⟩ := hidx
  set sims0 := vecs.map (fun v => dotQ v q_vec) with hs0
  set sims := adjustSims vp (df.map ClipRow.duration) sims0 with hsims
  set f := fun i => mkTake (df.getD i default) (sims.getD i 0) with hf
  have hpicks : ((idx.take (max (k * 4) k)).map f).Pairwise
      (fun a b => b.similarity ≤ a.similarity) :=
    (List.Pairwise.sublist (List.take_sublist _ _) hpair).map f (fun _ _ h => h)
  have key : clip_match_argsort vp df vecs ids q_vec k idx
      = ((idx.take (max (k * 4) k)).map f).take k := by
    show (List.insertionSort (fun a b => b.similarity ≤ a.similarity)
      ((idx.take (max (k * 4) k)).map f)).take k = _
    rw [List.Sorted.insertionSort_eq hpicks]
  have hslen : sims.length = df.length := by
    rw [hsims, length_adjustSims]
    · rw [hs0, List.length_map, hlen]
    · rw [hs0, List.length_map, List.length_map, hlen]
  constructor
  · rw [key, List.length_take, List.length_map, List.length_take,
      hperm.length_eq, List.length_range, hslen, ← Nat.min_assoc,
      Nat.min_eq_left (le_max_right (k * 4) k)]
  · rw [key]
    exact List.Pairwise.sublist (List.take_sublist _ _) hpicks

/-- C2 witness: a two-clip library with k = 1 and the admissible index order
[0, 1] (the scores are 1 and 0.47, so this is the only admissible order). -/
theorem C2_witness :
    (clip_match_argsort (planWith 5) [libRow ("A") 5, libRow ("B") 8]
        [[1], [1/2]] [] [1] 1 [0, 1]).length
      = min 1 [libRow ("A") 5, libRow ("B") 8].length ∧
    (clip_match_argsort (planWith 5) [libRow ("A") 5, libRow ("B") 8]
        [[1], [1/2]] [] [1] 1 [0, 1]).Pairwise
      (fun a b => b.similarity ≤ a.similarity) := by
  refine C2_topk_any_admissible_argsort (planWith 5) [libRow ("A") 5, libRow ("B") 8]
    [[1], [1/2]] [] [1] 1 [0, 1] (by decide) (by decide) ⟨by decide, ?_⟩
  have h1 : |(3 : ℚ)/5| = 3/5 := abs_of_nonneg (by norm_num)
  norm_num [adjustSims, clip01, dotQ, planWith, libRow, min_def, max_def, h1]

end ThesisCore
